import Mathlib

/-
Verification of the declarative-table query engine in
src/flask_declarative/tables.py (class Table with its TableMeta metaclass and
the Column / SingleColumn / TextColumn / NumericColumn hierarchy).

The embedding is shallow: the SQLAlchemy collaborator is modelled
symbolically.  A predicate (`Pred`) records which collaborator primitive the
code built (`and_`, `or_`, `==`, `ilike`, the `~` regex operator); a query
(`Query`) records the base row list together with the filter clauses,
ordering keys and pagination bounds folded onto it.  Rows are association
lists from attribute names to values.  Predicate evaluation follows the
collaborator's documented semantics: an empty `and_()` / `or_()` renders as
no clause at all, hence excludes nothing; regular-expression matching is
performed by the database, so it is a parameter (`rx`) of evaluation.

The incoming Flask request is modelled as an association list of
query-string keys to values, with `args.get` lookup helpers matching
Werkzeug behaviour (a failed `type=` coercion yields the default).
-/

namespace FlaskDecl

/-! ## Values, rows and symbolic predicates -/

/-- A cell value: the model distinguishes text from numbers, the two column
types the source implements. -/
inductive Val where
  | str (s : String)
  | int (n : Int)
deriving DecidableEq

/-- A database row, as an attribute-name/value association list
(`getattr(row, name)` becomes lookup). -/
abbrev Row := List (String × Val)

/-- First binding of an attribute in a row. -/
def rowGet (row : Row) (k : String) : Option Val :=
  (row.find? (fun kv => kv.1 == k)).map (fun kv => kv.2)

/-- Symbolic SQLAlchemy filter expression, as constructed by the source:
`and_(*terms)`, `or_(*terms)`, `column == value` (NumericColumn.search),
`column.ilike(pattern)` and `column.op('~')(pattern)` (TextColumn.search). -/
inductive Pred where
  | andP (ps : List Pred)
  | orP (ps : List Pred)
  | eqNum (col : String) (v : Int)
  | ilike (col : String) (pat : String)
  | regexMatch (col : String) (pat : String)

/-- Fuel-driven SQL LIKE matcher over character lists: a percent sign
matches any sequence, an underscore matches one character, anything else
matches itself.  The fuel argument only makes the recursion structural;
`likeMatch` supplies enough of it. -/
def likeMatchAux : Nat → List Char → List Char → Bool
  | 0, _, _ => false
  | _ + 1, [], cs => cs.isEmpty
  | f + 1, '%' :: ps, [] => likeMatchAux f ps []
  | f + 1, '%' :: ps, c :: cs =>
      likeMatchAux f ps (c :: cs) || likeMatchAux f ('%' :: ps) cs
  | _ + 1, '_' :: _, [] => false
  | f + 1, '_' :: ps, _ :: cs => likeMatchAux f ps cs
  | _ + 1, _ :: _, [] => false
  | f + 1, p :: ps, c :: cs => (p == c) && likeMatchAux f ps cs

/-- SQL LIKE pattern matching. -/
def likeMatch (pat s : List Char) : Bool :=
  likeMatchAux (pat.length + s.length + 1) pat s

/-- Lower-case a string character by character (for `ilike`). -/
def lowerStr (s : String) : String :=
  String.mk (s.data.map Char.toLower)

mutual
/-- Evaluate a symbolic predicate on a row.  `rx` is the database's
regular-expression matcher (the collaborator executes `~`, the engine never
interprets the pattern itself).  Empty `and_()` and `or_()` clause lists
render as no SQL at all and therefore exclude nothing. -/
def evalPred (rx : String → String → Bool) (row : Row) : Pred → Bool
  | .andP ps => evalAnd rx row ps
  | .orP [] => true
  | .orP (p :: ps) => evalOr rx row (p :: ps)
  | .eqNum col v =>
      match rowGet row col with
      | some (.int m) => m == v
      | _ => false
  | .ilike col pat =>
      match rowGet row col with
      | some (.str s) => likeMatch (lowerStr pat).data (lowerStr s).data
      | _ => false
  | .regexMatch col pat =>
      match rowGet row col with
      | some (.str s) => rx pat s
      | _ => false

/-- Conjunction of evaluated predicates. -/
def evalAnd (rx : String → String → Bool) (row : Row) : List Pred → Bool
  | [] => true
  | p :: ps => evalPred rx row p && evalAnd rx row ps

/-- Disjunction of evaluated predicates (non-empty clause lists only). -/
def evalOr (rx : String → String → Bool) (row : Row) : List Pred → Bool
  | [] => false
  | p :: ps => evalPred rx row p || evalOr rx row ps
end

/-! ## Queries and ordering keys -/

/-- One ORDER BY key, `column.asc()` or `column.desc()`. -/
inductive OrderKey where
  | ascK (col : String)
  | descK (col : String)
deriving DecidableEq

/-- Symbolic query: the base rows with the filter clauses, ordering keys and
pagination bounds folded on via the collaborator primitives. -/
structure Query where
  base : List Row
  filters : List Pred
  ordering : List OrderKey
  off : Int
  lim : Option Int

/-- Method `query.filter(p)`: appends one filter clause. -/
def Query.filterQ (q : Query) (p : Pred) : Query :=
  { q with filters := q.filters ++ [p] }

/-- Method `query.order_by(*keys)`: appends the ordering keys. -/
def Query.orderBy (q : Query) (ks : List OrderKey) : Query :=
  { q with ordering := q.ordering ++ ks }

/-- Method `query.offset(n)`. -/
def Query.offsetQ (q : Query) (n : Int) : Query :=
  { q with off := n }

/-- Method `query.limit(n)`. -/
def Query.limitQ (q : Query) (n : Int) : Query :=
  { q with lim := some n }

/-- Rows of the base that satisfy every filter clause. -/
def Query.matchingRows (q : Query) (rx : String → String → Bool) : List Row :=
  q.base.filter (fun r => q.filters.all (fun p => evalPred rx r p))

/-- Filtered rows with the pagination window applied.  Row order produced by
ORDER BY is the collaborator's concern and is not modelled (no claim
concerns the order of returned rows). -/
def Query.paged (q : Query) (rx : String → String → Bool) : List Row :=
  let rows := (q.matchingRows rx).drop q.off.toNat
  match q.lim with
  | none => rows
  | some n => rows.take n.toNat

/-- Method `query.count()` — the number of rows the query yields. -/
def Query.countQ (q : Query) (rx : String → String → Bool) : Nat :=
  (q.paged rx).length

/-- Method `query.all()`. -/
def Query.allQ (q : Query) (rx : String → String → Bool) : List Row :=
  q.paged rx

/-! ## Column behaviour (Column / SingleColumn / TextColumn / NumericColumn) -/

/-- Which of the source's column classes a declared column instantiates.
`base` is the plain `Column`; `text` and `numeric` are the single-backing
variants, carrying the backing database column's name.  For a numeric
column, `pythonType` models `self.column.type.python_type` as a parser for
the column's numeric subtype: `none` models the attribute access itself
raising (an unresolvable value type), `some parse` a resolvable type whose
constructor accepts or rejects a raw token. -/
inductive ColKind where
  | base
  | text (column : String)
  | numeric (column : String) (pythonType : Option (String → Option Int))

/-- Dispatch of the `search` method over the column classes
(tables.py lines 296-305, 342-346 and 354-359).
The plain `Column.search` returns `or_()`; `TextColumn.search` returns a raw
regex match or an `ilike` over percent-wrapped keyword; `NumericColumn.search`
parses the keyword with the column's python type inside a catch-all `try`,
returning `or_()` whenever the type is unavailable or the parse fails. -/
def colSearch (k : ColKind) (keyword : String) (regex : Bool) : Pred :=
  match k with
  | ColKind.base => Pred.orP []
  | ColKind.text column =>
      if regex then Pred.regexMatch column keyword
      else Pred.ilike column ("%" ++ keyword ++ "%")
  | ColKind.numeric column pythonType =>
      match pythonType with
      | none => Pred.orP []
      | some toNum =>
          match toNum keyword with
          | none => Pred.orP []
          | some v => Pred.eqNum column v

/-- Dispatch of the `order` method (tables.py lines 281-291 and 327-334):
the plain `Column` contributes no keys; `SingleColumn` contributes one
ascending or descending key for the exact directions `asc` / `desc` and
nothing otherwise. -/
def colOrder (k : ColKind) (direction : String) : List OrderKey :=
  match k with
  | ColKind.base => []
  | ColKind.text column =>
      if direction = "asc" then [OrderKey.ascK column]
      else if direction = "desc" then [OrderKey.descK column]
      else []
  | ColKind.numeric column _ =>
      if direction = "asc" then [OrderKey.ascK column]
      else if direction = "desc" then [OrderKey.descK column]
      else []

/-- A column instance, as built by `Column.__init__` (tables.py lines
273-279) from the class attributes and the per-request options dict. -/
structure ColInst where
  name : String
  label : String
  kind : ColKind
  searchable : Bool
  orderable : Bool
  filter_value : String
  filter_regex : Bool

/-- Method `Column.filter` (tables.py lines 293-294): search with the column's
stored filter value and regex flag. -/
def colFilter (c : ColInst) : Pred :=
  colSearch c.kind c.filter_value c.filter_regex

/-- Method `Column.extract` (tables.py lines 307-313): `getattr(row, self.name)`;
`none` models the AttributeError case. -/
def colExtract (c : ColInst) (row : Row) : Option Val :=
  rowGet row c.name

/-! ## Column registration (TableMeta) -/

/-- A nested column class as it appears in a table class body: its `label`
attribute (possibly unset) and its behaviour. -/
structure ColClassDef where
  label : Option String
  kind : ColKind

/-- A registered column after class creation: its resolved name, resolved
label and behaviour. -/
structure RegCol where
  name : String
  label : String
  kind : ColKind

/-- Python `orig_name[:-1]` when `orig_name.endswith('_')`. -/
def stripUnderscore (s : String) : String :=
  if s.data.getLast? = some '_' then String.mk s.data.dropLast else s

/-- Metaclass hook `TableMeta.__new__` (tables.py lines 57-79) for a single class body: the
column subclasses declared in the namespace are collected, in declaration
order, into `column_types`; a trailing underscore is stripped from the
attribute name; `Col.name` is set and a missing `Col.label` defaults to the
name.  No validation of any kind is performed. -/
def tableMetaNew (classBody : List (String × ColClassDef)) : List RegCol :=
  classBody.map (fun item =>
    let nm := stripUnderscore item.1
    ⟨nm, item.2.label.getD nm, item.2.kind⟩)

/-! ## The request and the `args.get` helpers -/

/-- The query-string arguments of the Flask request, as key/value pairs. -/
abbrev Req := List (String × String)

/-- Lookup in `request.args`: first value bound to the key, if any. -/
def getArg (req : Req) (key : String) : Option String :=
  (req.find? (fun kv => kv.1 == key)).map (fun kv => kv.2)

/-- Werkzeug `request.args.get(key, dflt)` with no type coercion. -/
def getStr (req : Req) (key : String) (dflt : String) : String :=
  match getArg req key with
  | some v => v
  | none => dflt

/-- Decimal integer literal parser over the digits already consumed. -/
def digitsToNatAux : List Char → Nat → Option Nat
  | [], acc => some acc
  | c :: cs, acc =>
      if c.isDigit then digitsToNatAux cs (acc * 10 + (c.toNat - 48)) else none

/-- Python `int(s)` restricted to canonical signed decimal literals (the
inputs the engine's claims exercise); any other string fails. -/
def strToInt? (s : String) : Option Int :=
  match s.data with
  | [] => none
  | '-' :: cs =>
      match cs with
      | [] => none
      | _ => (digitsToNatAux cs 0).map (fun n => -(n : Int))
  | '+' :: cs =>
      match cs with
      | [] => none
      | _ => (digitsToNatAux cs 0).map (fun n => (n : Int))
  | cs => (digitsToNatAux cs 0).map (fun n => (n : Int))

/-- Werkzeug `request.args.get(key, dflt, type=int)`: Werkzeug applies `int` to the
value and falls back to the default when the key is absent or the coercion
raises. -/
def getInt (req : Req) (key : String) (dflt : Int) : Int :=
  match getArg req key with
  | some v => (strToInt? v).getD dflt
  | none => dflt

/-- The module-level `boolean` coercion (tables.py lines 362-363). -/
def boolean (val : String) : Bool :=
  val == "true"

/-- Werkzeug `request.args.get(key, dflt, type=boolean)`: `boolean` never raises, so
a present key always coerces.  At tables.py line 202 the Python default is
the falsy empty string rather than `False`; the distinction is
unobservable downstream (the value only ever reaches the unused `regex`
parameter of `build_query`), so the default is modelled as a `Bool`. -/
def getBool (req : Req) (key : String) (dflt : Bool) : Bool :=
  match getArg req key with
  | some v => boolean v
  | none => dflt

/-! ## Request normalization (`Table.parse_request`) -/

/-- The per-column options dict built at tables.py lines 204-211. -/
structure ColOptions where
  data : Int
  name : Option String
  searchable : Bool
  orderable : Bool
  value : String
  regex : Bool
deriving DecidableEq

/-- The tuple `Table.parse_request` returns (tables.py line 230):
pagination window, the value/regex pair passed on to `build_query` as the
global search, the per-column options and the normalized order list of
(column name, direction) pairs. -/
structure Parsed where
  start : Int
  length : Int
  value : String
  regex : Bool
  columns : List ColOptions
  order : List (String × String)
deriving DecidableEq

/-- Request key `columns[i]<suffix>` of the flattened DataTables wire
format, e.g. `columnsKey 0 "[search][value]"`. -/
def columnsKey (i : Nat) (suffix : String) : String :=
  "columns[" ++ Nat.repr i ++ "]" ++ suffix

/-- Request key `order[i][column]`. -/
def orderColKey (i : Nat) : String :=
  "order[" ++ Nat.repr i ++ "][column]"

/-- Request key `order[i][dir]`. -/
def orderDirKey (i : Nat) : String :=
  "order[" ++ Nat.repr i ++ "][dir]"

/-- The first loop of `parse_request` (tables.py lines 188-211), iterating
`i` over the declared column positions.  Faithful to the source, each
options dict stores `value` and `regex` — the loop-invariant GLOBAL search
value and flag parsed at lines 182-183 — while the per-column
`columns[i][search][value]` / `columns[i][search][regex]` values are read
into the loop-local variables `search_value` / `search_regex` and then not
stored anywhere.  The second component of the result models those two
loop-local variables as they stand after the loop: `none` when the loop
body never ran (the variables were never bound), otherwise the values from
the final iteration. -/
def parseColumnsAux (req : Req) (value : String) (regex : Bool) :
    Nat → Nat → Option (String × Bool) → List ColOptions × Option (String × Bool)
  | 0, _, leaked => ([], leaked)
  | n + 1, i, _ =>
      let data := getInt req (columnsKey i "[data]") 0
      let nameArg := getArg req (columnsKey i "[name]")
      let searchableArg := getBool req (columnsKey i "[searchable]") true
      let orderableArg := getBool req (columnsKey i "[orderable]") true
      let search_value := getStr req (columnsKey i "[search][value]") ""
      let search_regex := getBool req (columnsKey i "[search][regex]") false
      let rest := parseColumnsAux req value regex n (i + 1) (some (search_value, search_regex))
      (⟨data, nameArg, searchableArg, orderableArg, value, regex⟩ :: rest.1, rest.2)

/-- The second loop of `parse_request` (tables.py lines 213-228): probe
`order[i][column]` for `i` below the declared column count, stopping at the
first absent key, skipping entries whose column index is out of range, and
resolving in-range indices to declared column names.  The fuel argument
stands for the remaining loop iterations of `range(len(self.column_types))`. -/
def parseOrderAux (req : Req) (colNames : List String) :
    Nat → Nat → List (String × String)
  | 0, _ => []
  | fuel + 1, i =>
      match getArg req (orderColKey i) with
      | none => []
      | some _ =>
          let column := getInt req (orderColKey i) 0
          if column ≥ (colNames.length : Int) ∨ column < 0 then
            parseOrderAux req colNames fuel (i + 1)
          else
            (colNames.getD column.toNat "", getStr req (orderDirKey i) "asc") ::
              parseOrderAux req colNames fuel (i + 1)

/-- The normalized order list. -/
def parseOrder (req : Req) (colNames : List String) : List (String × String) :=
  parseOrderAux req colNames colNames.length 0

/-- Method `Table.parse_request` (tables.py lines 178-230).  `colNames` are the
keys of the class's `column_types` registry, in declaration order.  The
returned `value` / `regex` are the loop-local `search_value` /
`search_regex` of the final per-column iteration, exactly as the source's
`return` statement reads them; when no column is declared the loop never
binds them and the `return` raises `NameError`, modelled as the error
result. -/
def parse_request (colNames : List String) (req : Req) : Except String Parsed :=
  let start := getInt req "start" 0
  let length := getInt req "length" 50
  let value := getStr req "search[value]" ""
  let regex := getBool req "search[regex]" false
  let cols := parseColumnsAux req value regex colNames.length 0 none
  let order := parseOrder req colNames
  match cols.2 with
  | none => Except.error "NameError"
  | some leaked => Except.ok ⟨start, length, leaked.1, leaked.2, cols.1, order⟩

/-! ## Query composition (`Table.build_query`) -/

/-- Tokenization used by the global search, `re.findall` of one-or-more
non-whitespace characters: maximal whitespace-free runs, in order. -/
def tokensAux : List Char → List Char → List String
  | [], acc => if acc.isEmpty then [] else [String.mk acc.reverse]
  | c :: cs, acc =>
      if c.isWhitespace then
        (if acc.isEmpty then tokensAux cs [] else String.mk acc.reverse :: tokensAux cs [])
      else tokensAux cs (c :: acc)

/-- Python `findall` of the raw pattern backslash-S-plus over the value. -/
def tokenize (s : String) : List String := tokensAux s.data []

/-- The OR-groups of the global search (tables.py lines 156-163): one group
per token, each the `or_` of `column.search(term)` over the searchable
columns.  The source calls `search` with its default `regex=False`; the
request's regex flag does not reach these calls. -/
def globalSearchGroups (cols : List ColInst) (value : String) : List Pred :=
  (tokenize value).map (fun term =>
    Pred.orP ((cols.filter (fun c => c.searchable)).map (fun c => colSearch c.kind term false)))

/-- The cumulative ORDER BY list (tables.py lines 167-172): for each
normalized (column name, direction) pair whose column is orderable, append
that column's `order(direction)` keys.  The name lookup cannot miss: the
names originate from the same `column_types` registry (a missing name would
be a `KeyError` in the source). -/
def composeOrdering (cols : List ColInst) (order : List (String × String)) : List OrderKey :=
  order.foldl (fun acc e =>
    match cols.find? (fun c => c.name == e.1) with
    | some c => if c.orderable then acc ++ colOrder c.kind e.2 else acc
    | none => acc) []

/-- Method `Table.build_query` (tables.py lines 143-176): fold onto the base query
the `and_` of every column's `filter()`, then the `and_` of the per-token
OR-groups of the global search, then the cumulative ordering.  The `regex`
parameter is accepted but never used (the source's XXX comment at line 144
states regex is not supported here). -/
def build_query (base : List Row) (cols : List ColInst) (order : List (String × String))
    (value : String) (regex : Bool) : Query :=
  let q : Query := ⟨base, [], [], 0, none⟩
  let q := q.filterQ (Pred.andP (cols.map colFilter))
  let q := q.filterQ (Pred.andP (globalSearchGroups cols value))
  q.orderBy (composeOrdering cols order)

/-! ## Table instantiation and the response envelope -/

/-- A table definition: the registered columns (the `column_types` registry
produced by `TableMeta`) and the base query's rows. -/
structure TableDef where
  columns : List RegCol
  query : List Row

/-- Instantiate the column objects (tables.py lines 134-135): zip the
registered classes with the parsed per-column options. -/
def mkColInsts (regs : List RegCol) (opts : List ColOptions) : List ColInst :=
  (regs.zip opts).map (fun ro =>
    ⟨ro.1.name, ro.1.label, ro.1.kind, ro.2.searchable, ro.2.orderable, ro.2.value, ro.2.regex⟩)

/-- The request-scoped state `Table.__init__` leaves on the instance. -/
structure TableState where
  columns : List ColInst
  total : Nat
  matching : Nat
  rows : List Row

/-- Method `Table.__init__` (tables.py lines 124-141): parse the request,
instantiate the columns, count the untouched base query into `total`,
compose the filtered query, count it into `matching`, then apply the
pagination window and fetch the rows. -/
def tableInit (rx : String → String → Bool) (t : TableDef) (req : Req) :
    Except String TableState :=
  match parse_request (t.columns.map RegCol.name) req with
  | Except.error e => Except.error e
  | Except.ok p =>
      let cols := mkColInsts t.columns p.columns
      let total := (Query.mk t.query [] [] 0 none).countQ rx
      let q := build_query t.query cols p.order p.value p.regex
      let matching := q.countQ rx
      let rows := ((q.offsetQ p.start).limitQ p.length).allQ rx
      Except.ok ⟨cols, total, matching, rows⟩

/-- The DataTables response envelope (tables.py lines 254-260). -/
structure Envelope where
  draw : Int
  recordsTotal : Nat
  recordsFiltered : Nat
  data : List (List (Option Val))
  columnsMeta : List (String × String)

/-- Method `Table.json` (tables.py lines 232-260): extract every column of every
fetched row, echo the draw token, report the two counts and the column
metadata. -/
def tableJson (req : Req) (st : TableState) : Envelope :=
  ⟨getInt req "draw" 0,
   st.total,
   st.matching,
   st.rows.map (fun r => st.columns.map (fun c => colExtract c r)),
   st.columns.map (fun c => (c.name, c.label))⟩

/-! ## Spec-side definition for the refinement comparison of claim C3 -/

/-- Modelled from the spec's words (query composer step 2, section 4.5):
for each token of the tokenized global search value, the `or_` of
`search(token, isRegex)` over the searchable columns, with the request's
regex flag passed through to every call.  This is the spec's reading, kept
separate so it can be compared with the source's `globalSearchGroups`. -/
def specSearchGroups (cols : List ColInst) (value : String) (regex : Bool) : List Pred :=
  (tokenize value).map (fun term =>
    Pred.orP ((cols.filter (fun c => c.searchable)).map (fun c => colSearch c.kind term regex)))

/-! ## Claims -/

/-- C5: for every numeric column, a search token that the column's python
type fails to parse yields the neutral zero-argument `or_` predicate (the
catch-all `try` in `NumericColumn.search` means no exception escapes — the
Lean embedding is a total function), and a token that parses yields an
equality of the backing column with the parsed value. -/
theorem c5_numeric_search_graceful (column keyword : String) (regex : Bool)
    (pythonType : String → Option Int) :
    (pythonType keyword = none →
      colSearch (ColKind.numeric column (some pythonType)) keyword regex = Pred.orP []) ∧
    (∀ v, pythonType keyword = some v →
      colSearch (ColKind.numeric column (some pythonType)) keyword regex = Pred.eqNum column v) := by
  constructor
  · intro h
    simp [colSearch, h]
  · intro v h
    simp [colSearch, h]

/-- Witness for C5 at the integer type: the token `abc` fails to parse and
gives the neutral predicate, the token `42` parses and gives an equality. -/
theorem c5_numeric_search_graceful_witness :
    colSearch (ColKind.numeric "age" (some strToInt?)) "abc" false = Pred.orP [] ∧
    colSearch (ColKind.numeric "age" (some strToInt?)) "42" false = Pred.eqNum "age" 42 :=
  ⟨(c5_numeric_search_graceful "age" "abc" false strToInt?).1 (by decide),
   (c5_numeric_search_graceful "age" "42" false strToInt?).2 42 (by decide)⟩

/-- C7 counterexample: a numeric column whose value type is unresolvable
(`python_type` unavailable) is NOT rejected at registration time —
`TableMeta.__new__` registers it without any validation — and at query time
its `search` silently falls back to the neutral predicate, contradicting
the claim that such a configuration is caught at registration and that
predicate construction never degrades to neutral for an unknown type. -/
theorem c7_unknown_type_counterexample :
    tableMetaNew [("age", ⟨none, ColKind.numeric "age" none⟩)] =
      [⟨"age", "age", ColKind.numeric "age" none⟩] ∧
    colSearch (ColKind.numeric "age" none) "5" false = Pred.orP [] :=
  ⟨rfl, rfl⟩

/-- C7 amended: column registration performs no type validation — every
declared column class is registered, an unresolvable value type included —
and `NumericColumn.search` silently returns the neutral predicate at query
time whenever the column's python type is unavailable. -/
theorem c7_no_type_validation (classBody : List (String × ColClassDef))
    (column keyword : String) (regex : Bool) :
    (tableMetaNew classBody).length = classBody.length ∧
    colSearch (ColKind.numeric column none) keyword regex = Pred.orP [] := by
  refine ⟨?_, rfl⟩
  simp [tableMetaNew]

/-- C8: for every text column, regex search builds the pattern-match
predicate with the raw token verbatim, and non-regex search builds the
case-insensitive containment predicate over the percent-wrapped token;
concretely, non-regex search for `world` matches the cell `Hello World`. -/
theorem c8_text_search (column keyword : String) :
    colSearch (ColKind.text column) keyword true = Pred.regexMatch column keyword ∧
    colSearch (ColKind.text column) keyword false =
      Pred.ilike column ("%" ++ keyword ++ "%") ∧
    evalPred (fun _ _ => false) [("name", Val.str "Hello World")]
      (colSearch (ColKind.text "name") "world" false) = true :=
  ⟨rfl, rfl, by decide⟩

/-- Table with one declared text column, for exercising C1. -/
def c1table : TableDef :=
  ⟨tableMetaNew [("name", ⟨some "Name", ColKind.text "name"⟩)], []⟩

/-- Request carrying a global search value `x` and a per-column search
value `y` for column 0. -/
def c1req : Req := [("search[value]", "x"), ("columns[0][search][value]", "y")]

/-- C1, behavior of the code at the failing input: with global search value
`x` and per-column search value `y`, the instantiated column's stored
filter value is the GLOBAL `x` (tables.py line 209 stores the loop-invariant
`value` in every options dict), so the step-1 predicate the column
contributes is `ilike '%x%'` — not `search("y", false)` as the claim
requires. -/
theorem c1_filter_uses_global_value :
    ∃ st, tableInit (fun _ _ => false) c1table c1req = Except.ok st ∧
      st.columns.map ColInst.filter_value = ["x"] ∧
      st.columns.map colFilter = [Pred.ilike "name" "%x%"] :=
  ⟨_, rfl, rfl, rfl⟩

/-- Request carrying only a global search value `x`. -/
def c2req : Req := [("search[value]", "x")]

/-- C2, behavior of the code at the failing input: for a one-column table
and a request with `search[value]=x` and no per-column keys, the `value`
handed to `build_query` as the global search is the empty string — the
leaked loop-local `search_value` of the last per-column iteration (tables.py
line 230) — while the real global `x` ends up stored in the column's
options.  The claim says the tokenized global value would be `x`. -/
theorem c2_global_value_is_leaked_column_value :
    parse_request ["name"] c2req =
      Except.ok ⟨0, 50, "", false, [⟨0, none, true, true, "x", false⟩], []⟩ :=
  rfl

/-- A searchable, orderable text column instance with no stored filter. -/
def exTextCol : ColInst :=
  ⟨"name", "Name", ColKind.text "name", true, true, "", false⟩

/-- C3 counterexample: with one searchable text column, global value `foo`
and regex flag TRUE, the claim says the token's OR-group holds
`search("foo", true)`, i.e. the regex predicate; the source builds the
group from `column.search(term)` with its default `regex=False`, so the
composed query's second filter clause is the `ilike` group instead.  The
claim as stated is therefore false at this input. -/
theorem c3_regex_flag_counterexample :
    (build_query [] [exTextCol] [] "foo" true).filters.getD 1 (Pred.orP []) ≠
      Pred.andP (specSearchGroups [exTextCol] "foo" true) := by
  intro h
  have h' : Pred.andP [Pred.orP [Pred.ilike "name" "%foo%"]] =
      Pred.andP [Pred.orP [Pred.regexMatch "name" "foo"]] := h
  simp at h'

/-- C3 amended: step 2 of query composition tokenizes the global value on
runs of non-whitespace (so tokenizing `  foo   bar ` yields exactly `foo`
and `bar`), and ANDs, one group per token, the OR of `search(token)` over
exactly the searchable columns — but with the regex flag ignored: every
`search` call uses `regex=False` whatever the request's flag says (the
source's XXX comment declares regex unsupported).  A column whose
searchable flag is false contributes to no OR-group. -/
theorem c3_global_search_composition (base : List Row) (cols : List ColInst)
    (order : List (String × String)) (value : String) (regex : Bool) :
    (build_query base cols order value regex).filters =
      [Pred.andP (cols.map colFilter), Pred.andP (specSearchGroups cols value false)] ∧
    tokenize "  foo   bar " = ["foo", "bar"] ∧
    (∀ (c : ColInst) (cols2 : List ColInst) (v : String), c.searchable = false →
      specSearchGroups (c :: cols2) v false = specSearchGroups cols2 v false) := by
  refine ⟨rfl, by decide, ?_⟩
  intro c cols2 v h
  simp [specSearchGroups, List.filter_cons, h]

/-- A non-searchable text column instance. -/
def exHiddenCol : ColInst :=
  ⟨"secret", "Secret", ColKind.text "secret", false, true, "", false⟩

/-- Witness for C3 amended, at a concrete query composition and a concrete
non-searchable column. -/
theorem c3_global_search_composition_witness :
    (build_query [] [exTextCol] [] "foo" true).filters =
      [Pred.andP [colFilter exTextCol],
       Pred.andP (specSearchGroups [exTextCol] "foo" false)] ∧
    specSearchGroups [exHiddenCol] "foo" false = specSearchGroups [] "foo" false :=
  ⟨(c3_global_search_composition [] [exTextCol] [] "foo" true).1,
   (c3_global_search_composition [] [] [] "" false).2.2 exHiddenCol [] "foo" rfl⟩

/-- C6: normalizing the order list stops at the first probe index whose
`order[i][column]` key is absent; a present entry whose column index falls
outside the declared range is discarded while scanning continues; and on
the claim's own example — a two-column table with
`order = [(column -1, asc), (column 0, desc)]` — the normalized order list
is exactly column 0 descending. -/
theorem c6_order_normalization :
    (∀ (req : Req) (names : List String) (fuel i : Nat),
        getArg req (orderColKey i) = none →
        parseOrderAux req names (fuel + 1) i = []) ∧
    (∀ (req : Req) (names : List String) (fuel i : Nat) (v : String),
        getArg req (orderColKey i) = some v →
        (getInt req (orderColKey i) 0 ≥ (names.length : Int) ∨
          getInt req (orderColKey i) 0 < 0) →
        parseOrderAux req names (fuel + 1) i = parseOrderAux req names fuel (i + 1)) ∧
    (∀ (req : Req) (names : List String),
        names.length = 2 →
        getArg req (orderColKey 0) = some "-1" →
        getArg req (orderColKey 1) = some "0" →
        getArg req (orderDirKey 1) = some "desc" →
        parseOrder req names = [(names.getD 0 "", "desc")]) := by
  refine ⟨?_, ?_, ?_⟩
  · intro req names fuel i h
    simp [parseOrderAux, h]
  · intro req names fuel i v hv hrange
    simp [parseOrderAux, hv, if_pos hrange]
  · intro req names h2 hc0 hc1 hd1
    have hi0 : getInt req (orderColKey 0) 0 = -1 := by
      simp [getInt, hc0]
      decide
    have hi1 : getInt req (orderColKey 1) 0 = 0 := by
      simp [getInt, hc1]
      decide
    have hdir : getStr req (orderDirKey 1) "asc" = "desc" := by
      simp [getStr, hd1]
    rw [parseOrder, h2]
    show parseOrderAux req names (1 + 1) 0 = _
    rw [parseOrderAux, hc0]
    simp only [hi0, h2]
    rw [if_pos (by decide)]
    rw [parseOrderAux, hc1]
    simp only [hi1, h2, hdir]
    rw [if_neg (by decide)]
    rfl

/-- The order fragment of the claim C6 example request. -/
def c6req : Req :=
  [("order[0][column]", "-1"), ("order[0][dir]", "asc"),
   ("order[1][column]", "0"), ("order[1][dir]", "desc")]

/-- Witness for C6: each conjunct applied at a concrete request; the
example request yields ordering solely by the first column descending. -/
theorem c6_order_normalization_witness :
    parseOrderAux [] ["a"] 1 0 = [] ∧
    parseOrderAux c6req ["a", "b"] 2 0 = parseOrderAux c6req ["a", "b"] 1 1 ∧
    parseOrder c6req ["a", "b"] = [("a", "desc")] :=
  ⟨c6_order_normalization.1 [] ["a"] 0 0 (by decide),
   c6_order_normalization.2.1 c6req ["a", "b"] 1 0 "-1" (by decide) (by decide),
   c6_order_normalization.2.2 c6req ["a", "b"] rfl (by decide) (by decide) (by decide)⟩

/-- Scanning the order list reads only the `order[i][column]` and
`order[i][dir]` keys of the probed indices: two requests that agree on the
keys of indices in the scanned window normalize identically. -/
theorem parseOrderAux_congr (req req' : Req) (names : List String) :
    ∀ (fuel i : Nat),
      (∀ j, i ≤ j → j < i + fuel →
        getArg req (orderColKey j) = getArg req' (orderColKey j) ∧
        getArg req (orderDirKey j) = getArg req' (orderDirKey j)) →
      parseOrderAux req names fuel i = parseOrderAux req' names fuel i := by
  intro fuel
  induction fuel with
  | zero => intro i h; rfl
  | succ n ih =>
      intro i h
      have hcol := (h i (Nat.le_refl i) (by omega)).1
      have hdir := (h i (Nat.le_refl i) (by omega)).2
      have hrec : parseOrderAux req names n (i + 1) = parseOrderAux req' names n (i + 1) :=
        ih (i + 1) (fun j hj1 hj2 => h j (by omega) (by omega))
      simp only [parseOrderAux, getInt, getStr, hcol, hdir, hrec]

/-- C10: the request normalizer examines at most `columnCount` order
entries — two requests agreeing on the `order[i][column]` and
`order[i][dir]` keys for every `i` below the declared column count produce
the same normalized order list, whatever order keys they carry at indices
at or beyond the column count. -/
theorem c10_order_probe_bounded (req req' : Req) (names : List String)
    (h : ∀ i, i < names.length →
        getArg req (orderColKey i) = getArg req' (orderColKey i) ∧
        getArg req (orderDirKey i) = getArg req' (orderDirKey i)) :
    parseOrder req names = parseOrder req' names :=
  parseOrderAux_congr req req' names names.length 0
    (fun j hj1 hj2 => h j (by omega))

/-- Request ordering by the only declared column. -/
def c10req : Req := [("order[0][column]", "0"), ("order[0][dir]", "asc")]

/-- The same request with an extra order entry at index 1, beyond the
single declared column. -/
def c10req' : Req :=
  [("order[0][column]", "0"), ("order[0][dir]", "asc"),
   ("order[1][column]", "0"), ("order[1][dir]", "desc")]

/-- Witness for C10: a valid `order[1]` entry present beyond the one-column
table's count is silently ignored. -/
theorem c10_order_probe_bounded_witness :
    parseOrder c10req ["a"] = parseOrder c10req' ["a"] :=
  c10_order_probe_bounded c10req c10req' ["a"] (by decide)

/-- Unfolding of `parse_request` with its lets substituted, for rewriting. -/
theorem parse_request_eq (colNames : List String) (req : Req) :
    parse_request colNames req =
      match (parseColumnsAux req (getStr req "search[value]" "")
          (getBool req "search[regex]" false) colNames.length 0 none).2 with
      | none => Except.error "NameError"
      | some leaked =>
          Except.ok ⟨getInt req "start" 0, getInt req "length" 50, leaked.1, leaked.2,
            (parseColumnsAux req (getStr req "search[value]" "")
              (getBool req "search[regex]" false) colNames.length 0 none).1,
            parseOrder req colNames⟩ :=
  rfl

/-- Once the per-column loop has run at least one iteration with bound
loop-locals, they stay bound through the remaining iterations. -/
theorem parseColumnsAux_snd_some (req : Req) (value : String) (regex : Bool) :
    ∀ (n i : Nat) (s : String) (b : Bool),
      (parseColumnsAux req value regex n i (some (s, b))).2.isSome = true := by
  intro n
  induction n with
  | zero => intro i s b; rfl
  | succ m ih =>
      intro i s b
      show (parseColumnsAux req value regex m (i + 1)
          (some (getStr req (columnsKey i "[search][value]") "",
                 getBool req (columnsKey i "[search][regex]") false))).2.isSome = true
      exact ih (i + 1) _ _

/-- A per-column loop of at least one iteration leaves the loop-local
search variables bound. -/
theorem parseColumnsAux_snd_isSome (req : Req) (value : String) (regex : Bool)
    (n i : Nat) (prev : Option (String × Bool)) :
    (parseColumnsAux req value regex (n + 1) i prev).2.isSome = true := by
  show (parseColumnsAux req value regex n (i + 1)
      (some (getStr req (columnsKey i "[search][value]") "",
             getBool req (columnsKey i "[search][regex]") false))).2.isSome = true
  exact parseColumnsAux_snd_some req value regex n (i + 1) _ _

/-- C9: request normalization is total exactly under the precondition that
a column is declared.  For a table with zero declared columns,
instantiation evaluates the `return` of `parse_request` with the
loop-locals `search_value` / `search_regex` unbound and raises `NameError`;
with at least one declared column, `parse_request` always returns a parsed
request. -/
theorem c9_zero_columns_name_error (rx : String → String → Bool) :
    (∀ (rows : List Row) (req : Req),
        tableInit rx ⟨[], rows⟩ req = Except.error "NameError") ∧
    (∀ (names : List String) (req : Req), names ≠ [] →
        ∃ p, parse_request names req = Except.ok p) := by
  constructor
  · intro rows req
    rfl
  · intro names req hne
    cases names with
    | nil => exact absurd rfl hne
    | cons a as =>
        have hs := parseColumnsAux_snd_isSome req (getStr req "search[value]" "")
          (getBool req "search[regex]" false) as.length 0 none
        obtain ⟨sb, hsb⟩ := Option.isSome_iff_exists.mp hs
        rw [parse_request_eq]
        simp only [List.length_cons]
        rw [hsb]
        exact ⟨_, rfl⟩

/-- Witness for C9: the empty-column table errors on the empty request, the
one-column table parses it. -/
theorem c9_zero_columns_name_error_witness :
    tableInit (fun _ _ => false) ⟨[], []⟩ [] = Except.error "NameError" ∧
    ∃ p, parse_request ["a"] [] = Except.ok p :=
  ⟨(c9_zero_columns_name_error (fun _ _ => false)).1 [] [],
   (c9_zero_columns_name_error (fun _ _ => false)).2 ["a"] [] (by decide)⟩

/-- Value of `Table.__init__` when `parse_request` succeeds. -/
theorem tableInit_ok (rx : String → String → Bool) (t : TableDef) (req : Req)
    (p : Parsed)
    (hp : parse_request (t.columns.map RegCol.name) req = Except.ok p) :
    tableInit rx t req =
      Except.ok ⟨mkColInsts t.columns p.columns,
        (Query.mk t.query [] [] 0 none).countQ rx,
        (build_query t.query (mkColInsts t.columns p.columns) p.order p.value
          p.regex).countQ rx,
        (((build_query t.query (mkColInsts t.columns p.columns) p.order p.value
          p.regex).offsetQ p.start).limitQ p.length).allQ rx⟩ := by
  unfold tableInit
  rw [hp]

/-- Filtering by the always-true predicate keeps every row. -/
theorem filter_const_true {α : Type} (l : List α) :
    l.filter (fun _ => true) = l := by
  induction l with
  | nil => rfl
  | cons x xs ih => simp [List.filter, ih]

/-- C4: the envelope's `recordsTotal` is the row count of the base query
with no filter applied — a quantity depending only on the table, not on any
search or order parameter of the request — and `recordsFiltered` is the row
count of the composed query before the pagination window is applied. -/
theorem c4_counts (rx : String → String → Bool) (t : TableDef) (req : Req)
    (st : TableState) (h : tableInit rx t req = Except.ok st) :
    (tableJson req st).recordsTotal = t.query.length ∧
    ∃ p, parse_request (t.columns.map RegCol.name) req = Except.ok p ∧
      (tableJson req st).recordsFiltered =
        ((build_query t.query (mkColInsts t.columns p.columns) p.order p.value
          p.regex).matchingRows rx).length := by
  cases hp : parse_request (t.columns.map RegCol.name) req with
  | error e =>
      rw [tableInit] at h
      rw [hp] at h
      exact Except.noConfusion h
  | ok p =>
      rw [tableInit_ok rx t req p hp] at h
      injection h with h1
      subst h1
      refine ⟨?_, p, rfl, ?_⟩
      · show (Query.mk t.query [] [] 0 none).countQ rx = t.query.length
        simp [Query.countQ, Query.paged, Query.matchingRows, filter_const_true]
      · show (build_query t.query (mkColInsts t.columns p.columns) p.order p.value
            p.regex).countQ rx = _
        simp [build_query, Query.filterQ, Query.orderBy, Query.countQ, Query.paged]

/-- Table with one declared text column over a two-row base query. -/
def c4table : TableDef :=
  ⟨tableMetaNew [("name", ⟨some "Name", ColKind.text "name"⟩)],
   [[("name", Val.str "Alice")], [("name", Val.str "Bob")]]⟩

/-- State `Table.__init__` computes for `c4table` on the empty request. -/
def c4state : TableState :=
  ⟨[⟨"name", "Name", ColKind.text "name", true, true, "", false⟩], 2, 2,
   [[("name", Val.str "Alice")], [("name", Val.str "Bob")]]⟩

/-- Witness for C4 on the two-row table and the empty request: both counts
are the full row count, since nothing is filtered. -/
theorem c4_counts_witness :
    (tableJson [] c4state).recordsTotal = c4table.query.length ∧
    ∃ p, parse_request (c4table.columns.map RegCol.name) [] = Except.ok p ∧
      (tableJson [] c4state).recordsFiltered =
        ((build_query c4table.query (mkColInsts c4table.columns p.columns) p.order p.value
          p.regex).matchingRows (fun _ _ => false)).length :=
  c4_counts (fun _ _ => false) c4table [] c4state (by rfl)

end FlaskDecl
